import Mathlib

/-!
Shallow embedding of `src/ens_mcp_server.py` (an MCP server exposing ENS
name-resolution operations) and verification of specification claims about it.

The embedding models parsed JSON values, the external web3/ENS collaborator as
a record of possibly-raising functions, the four domain operations, the
tool-call router `handle_tool_call`, the message router `handle_message`, and
the stdio message loop `run_stdio`.  Python exceptions are modelled with
`Except`; Python timestamps (`datetime.utcnow().isoformat()`) are threaded as
an explicit `now : String` parameter.
-/

namespace EnsMcp

/-- JSON values as produced by parsing one request line (Python `json.loads`).
Numbers are modelled as integers (no claim involves fractional values); an
object is a list of key/value pairs in insertion order. -/
inductive Json where
  | null
  | bool (b : Bool)
  | num (n : Int)
  | str (s : String)
  | arr (elems : List Json)
  | obj (fields : List (String × Json))

/-- Field list of a JSON object, in Python dict insertion order. -/
abbrev Fields := List (String × Json)

/-- First-match lookup in a JSON object's field list (Python `dict` access;
keys of a parsed JSON object are unique). -/
def lookupField : Fields → String → Option Json
  | [], _ => none
  | (k, v) :: rest, key => if k = key then some v else lookupField rest key

/-- A raised Python exception: either an `ENSException` (caught separately in
`resolve_ens_name`) or any other `Exception`, carrying its `str(e)` text. -/
inductive PyErr where
  | ensErr (msg : String)
  | otherErr (msg : String)

/-- Python `str(e)` of an exception. -/
def pyErrStr : PyErr → String
  | .ensErr m => m
  | .otherErr m => m

/-- Whitespace stripping from both ends of a character list, the list-level
content of Python `str.strip()`. -/
def stripL (l : List Char) : List Char :=
  List.rdropWhile Char.isWhitespace (List.dropWhile Char.isWhitespace l)

/-- Python `str.strip()`: drop whitespace from both ends (ASCII whitespace
model via `Char.isWhitespace`). -/
def pyStrip (s : String) : String := String.mk (stripL s.data)

/-- Python `str.lower()` (ASCII case folding, as `Char.toLower`). -/
def pyLower (s : String) : String :=
  String.mk (s.data.map Char.toLower)

/-- The composite `s.strip().lower()` applied by the server to name-like
inputs. -/
def pyNormalize (s : String) : String := pyLower (pyStrip s)

/-- Stripping then lowercasing, at the character-list level. -/
def normalizeL (l : List Char) : List Char := (stripL l).map Char.toLower

/-- The web3 collaborator surface used by the server (`self.w3`):
`is_address` and `to_checksum_address`, modelled as total functions. -/
structure W3 where
  is_address : String → Bool
  to_checksum_address : String → String

/-- The ENS resolver collaborator surface used by the server (`self.ens`).
Each lookup may raise (`Except.error`) or return a possibly-absent value.
`resolverAddr` models the composite `resolver.address if resolver and
hasattr(resolver, ...) else None` extraction of `get_ens_info`. -/
structure ENSClient where
  address : String → Except PyErr (Option String)
  addressCoin : String → Json → Except PyErr (Option String)
  name : String → Except PyErr (Option String)
  get_text : String → String → Except PyErr (Option String)
  owner : String → Except PyErr (Option String)
  resolverAddr : String → Except PyErr (Option String)

/-- Server state after `__init__`: `self.w3` and `self.ens`, each `None`
until `initialize_web3` assigns them. -/
structure Server where
  w3 : Option W3
  ens : Option ENSClient

/-- Python truthiness of an optional string (`if not value` is taken on
`None` and on the empty string). -/
def truthyOptStr : Option String → Bool
  | none => false
  | some s => !(s == "")

/-- A possibly-absent string as a JSON value (Python `None` serializes as
`null`). -/
def optStrJson : Option String → Json
  | none => Json.null
  | some s => Json.str s

/-- Message of the `AttributeError` raised when a `str` method is called on a
non-string value (exact CPython text abstracted by a constant). -/
def attrStripMsg : String := "AttributeError: strip"

/-- Message of the `AttributeError` raised when `.get` is called on a
non-dict value (exact CPython text abstracted by a constant). -/
def attrGetMsg : String := "AttributeError: get"

/-- Message of the `TypeError` raised when a non-dict value is subscripted
(exact CPython text abstracted by a constant). -/
def subscriptTypeMsg : String := "TypeError: subscript"

/-- An apostrophe character (code point 39), written numerically. -/
def quoteChar : Char := Char.ofNat 39

/-- Python `str(KeyError(k))`, which renders as the key wrapped in
apostrophes. -/
def pyKeyErrStr (k : String) : String :=
  String.mk [quoteChar] ++ k ++ String.mk [quoteChar]

/-- Embedding of `ENSMCPServer.resolve_ens_name` (src/ens_mcp_server.py:135).
Arguments arrive as parsed JSON; a non-string `ens_name` makes
`ens_name.strip()` raise, which the function's own generic handler converts
to an `Unexpected error` envelope. -/
def resolve_ens_name (srv : Server) (ens_name : Json) (coin_type : Json) (now : String) :
    Fields :=
  match srv.ens with
  | none =>
      [("success", .bool false), ("error", .str "ENS not initialized"),
       ("ens_name", ens_name), ("coin_type", coin_type)]
  | some e =>
      match ens_name with
      | .str raw =>
          let n := pyNormalize raw
          let res := match coin_type with
            | .num 60 => e.address n
            | _ => e.addressCoin n coin_type
          match res with
          | .error (.ensErr m) =>
              [("success", .bool false), ("error", .str ("ENS error: " ++ m)),
               ("ens_name", .str n), ("coin_type", coin_type)]
          | .error (.otherErr m) =>
              [("success", .bool false), ("error", .str ("Unexpected error: " ++ m)),
               ("ens_name", .str n), ("coin_type", coin_type)]
          | .ok a =>
              if truthyOptStr a then
                [("success", .bool true), ("ens_name", .str n),
                 ("address", optStrJson a), ("coin_type", coin_type),
                 ("timestamp", .str now)]
              else
                [("success", .bool false),
                 ("error", .str ("No address found for ENS name: " ++ n)),
                 ("ens_name", .str n), ("coin_type", coin_type)]
      | _ =>
          [("success", .bool false), ("error", .str ("Unexpected error: " ++ attrStripMsg)),
           ("ens_name", ens_name), ("coin_type", coin_type)]

/-- Embedding of `ENSMCPServer.reverse_resolve_address`
(src/ens_mcp_server.py:185).  The single `except Exception` clause covers
both the `strip` attribute error on non-string input and a raising
`self.ens.name` lookup; at those points the local `address` variable holds,
respectively, the raw input and the stripped input. -/
def reverse_resolve_address (srv : Server) (address : Json) (now : String) : Fields :=
  match srv.w3, srv.ens with
  | some w3c, some e =>
      match address with
      | .str raw =>
          let a := pyStrip raw
          if w3c.is_address a then
            let cs := w3c.to_checksum_address a
            match e.name cs with
            | .error err =>
                [("success", .bool false),
                 ("error", .str ("Error during reverse resolution: " ++ pyErrStr err)),
                 ("address", .str a)]
            | .ok v =>
                if truthyOptStr v then
                  [("success", .bool true), ("address", .str cs),
                   ("ens_name", optStrJson v), ("timestamp", .str now)]
                else
                  [("success", .bool false),
                   ("error", .str ("No ENS name found for address: " ++ cs)),
                   ("address", .str cs)]
          else
            [("success", .bool false),
             ("error", .str ("Invalid Ethereum address format: " ++ a)),
             ("address", .str a)]
      | _ =>
          [("success", .bool false),
           ("error", .str ("Error during reverse resolution: " ++ attrStripMsg)),
           ("address", address)]
  | _, _ =>
      [("success", .bool false), ("error", .str "Web3 or ENS not initialized"),
       ("address", address)]

/-- Embedding of `ENSMCPServer.get_ens_text_record` (src/ens_mcp_server.py:233).
The name is normalized before the key; if the key is not a string the handler
fires after the name was already rebound to its normalized form. -/
def get_ens_text_record (srv : Server) (ens_name key : Json) (now : String) : Fields :=
  match srv.ens with
  | none =>
      [("success", .bool false), ("error", .str "ENS not initialized"),
       ("ens_name", ens_name), ("key", key)]
  | some e =>
      match ens_name with
      | .str rawName =>
          let n := pyNormalize rawName
          match key with
          | .str rawKey =>
              let k := pyNormalize rawKey
              match e.get_text n k with
              | .ok v =>
                  [("success", .bool true), ("ens_name", .str n), ("key", .str k),
                   ("value", optStrJson v), ("timestamp", .str now)]
              | .error err =>
                  [("success", .bool false),
                   ("error", .str ("Error getting text record: " ++ pyErrStr err)),
                   ("ens_name", .str n), ("key", .str k)]
          | _ =>
              [("success", .bool false),
               ("error", .str ("Error getting text record: " ++ attrStripMsg)),
               ("ens_name", .str n), ("key", key)]
      | _ =>
          [("success", .bool false),
           ("error", .str ("Error getting text record: " ++ attrStripMsg)),
           ("ens_name", ens_name), ("key", key)]

/-- The fixed text-record keys queried by `get_ens_info`
(src/ens_mcp_server.py:309). -/
def commonKeys : List String :=
  ["url", "email", "twitter", "github", "discord", "telegram", "description"]

/-- The `text_records` accumulation loop of `get_ens_info`: each key is looked
up under its own `try`; a raising lookup is skipped (`except: pass`), and a
returned value is kept only when truthy (present and non-empty). -/
def collectTextRecords (e : ENSClient) (n : String) : List String → Fields
  | [] => []
  | k :: ks =>
      match e.get_text n k with
      | .ok (some v) =>
          if v == "" then collectTextRecords e n ks
          else (k, Json.str v) :: collectTextRecords e n ks
      | _ => collectTextRecords e n ks

/-- One independently-guarded sub-lookup of `get_ens_info`: a raising lookup
degrades the field to `None`; otherwise the possibly-absent value is stored
as-is. -/
def exceptFieldJson : Except PyErr (Option String) → Json
  | .ok v => optStrJson v
  | .error _ => Json.null

/-- Embedding of `ENSMCPServer.get_ens_info` (src/ens_mcp_server.py:267). -/
def get_ens_info (srv : Server) (ens_name : Json) (now : String) : Fields :=
  match srv.ens with
  | none =>
      [("success", .bool false), ("error", .str "ENS not initialized"),
       ("ens_name", ens_name)]
  | some e =>
      match ens_name with
      | .str raw =>
          let n := pyNormalize raw
          [("success", .bool true), ("ens_name", .str n), ("timestamp", .str now),
           ("address", exceptFieldJson (e.address n)),
           ("owner", exceptFieldJson (e.owner n)),
           ("resolver", exceptFieldJson (e.resolverAddr n)),
           ("text_records", .obj (collectTextRecords e n commonKeys))]
      | _ =>
          [("success", .bool false),
           ("error", .str ("Error getting ENS info: " ++ attrStripMsg)),
           ("ens_name", ens_name)]

mutual
/-- Python `json.dumps` of a parsed value (string escaping and the `indent=2`
layout of the source abstracted to a flat rendering). -/
def Json.dumps : Json → String
  | .null => "null"
  | .bool true => "true"
  | .bool false => "false"
  | .num n => toString n
  | .str s => "\"" ++ s ++ "\""
  | .arr xs => "[" ++ dumpsList xs ++ "]"
  | .obj fs => "\x7b" ++ dumpsFields fs ++ "\x7d"

/-- Comma-separated rendering of a JSON array's elements. -/
def dumpsList : List Json → String
  | [] => ""
  | [x] => Json.dumps x
  | x :: xs => Json.dumps x ++ ", " ++ dumpsList xs

/-- Comma-separated rendering of a JSON object's fields. -/
def dumpsFields : Fields → String
  | [] => ""
  | [(k, v)] => "\"" ++ k ++ "\": " ++ Json.dumps v
  | (k, v) :: fs => "\"" ++ k ++ "\": " ++ Json.dumps v ++ ", " ++ dumpsFields fs
end

/-- Python f-string interpolation of a parsed JSON value (`str(x)`):
`None`, `True`, `False`, numerals, a string as itself; containers abstracted
by their serialized form. -/
def fstr : Json → String
  | .null => "None"
  | .bool true => "True"
  | .bool false => "False"
  | .num n => toString n
  | .str s => s
  | j => Json.dumps j

/-- Python `x == "lit"` where `x` is an arbitrary parsed value: true exactly
when `x` is that string. -/
def jstrEq (j : Json) (t : String) : Bool :=
  match j with
  | .str u => u == t
  | _ => false

/-- Envelope produced by the `except Exception` clause of `handle_tool_call`. -/
def toolCallCatch (msg : String) : Fields :=
  [("success", .bool false), ("error", .str ("Error handling tool call: " ++ msg))]

/-- Embedding of `ENSMCPServer.handle_tool_call` (src/ens_mcp_server.py:330).
A subscript `arguments[k]` raises `KeyError(k)` when the key is missing and a
`TypeError` when `arguments` is not a dict; both land in the function's own
`except` clause.  The domain operations themselves never raise (each catches
internally), so the clause fires only for argument extraction. -/
def handle_tool_call (srv : Server) (now : String) (tool_name arguments : Json) : Fields :=
  if jstrEq tool_name "resolve_ens_name" then
    match arguments with
    | .obj afs =>
        match lookupField afs "ens_name" with
        | some nv =>
            resolve_ens_name srv nv ((lookupField afs "coin_type").getD (.num 60)) now
        | none => toolCallCatch (pyKeyErrStr "ens_name")
    | _ => toolCallCatch subscriptTypeMsg
  else if jstrEq tool_name "reverse_resolve_address" then
    match arguments with
    | .obj afs =>
        match lookupField afs "address" with
        | some av => reverse_resolve_address srv av now
        | none => toolCallCatch (pyKeyErrStr "address")
    | _ => toolCallCatch subscriptTypeMsg
  else if jstrEq tool_name "get_ens_text_record" then
    match arguments with
    | .obj afs =>
        match lookupField afs "ens_name" with
        | some nv =>
            match lookupField afs "key" with
            | some kv => get_ens_text_record srv nv kv now
            | none => toolCallCatch (pyKeyErrStr "key")
        | none => toolCallCatch (pyKeyErrStr "ens_name")
    | _ => toolCallCatch subscriptTypeMsg
  else if jstrEq tool_name "get_ens_info" then
    match arguments with
    | .obj afs =>
        match lookupField afs "ens_name" with
        | some nv => get_ens_info srv nv now
        | none => toolCallCatch (pyKeyErrStr "ens_name")
    | _ => toolCallCatch subscriptTypeMsg
  else
    [("success", .bool false), ("error", .str ("Unknown tool: " ++ fstr tool_name))]

/-- Embedding of `get_server_info` (src/ens_mcp_server.py:51). -/
def server_info : Json :=
  .obj [("name", .str "ENS MCP Server"), ("version", .str "1.0.0"),
        ("description",
         .str "A Model Context Protocol server for Ethereum Name Service resolution"),
        ("author", .str "ENS MCP Team"),
        ("capabilities", .obj [("tools", .bool true), ("resources", .bool false),
                               ("prompts", .bool false)])]

/-- Embedding of `get_available_tools` (src/ens_mcp_server.py:65): the four
static Operation Descriptors. -/
def available_tools : List Json :=
  [.obj [("name", .str "resolve_ens_name"),
         ("description", .str "Resolve an ENS name to an Ethereum address"),
         ("inputSchema",
          .obj [("type", .str "object"),
                ("properties",
                 .obj [("ens_name",
                        .obj [("type", .str "string"),
                              ("description",
                               .str "The ENS name to resolve (e.g., 'vitalik.eth')")]),
                       ("coin_type",
                        .obj [("type", .str "integer"),
                              ("description",
                               .str "Optional coin type for multi-chain address resolution (default: 60 for ETH)"),
                              ("default", .num 60)])]),
                ("required", .arr [.str "ens_name"])])],
   .obj [("name", .str "reverse_resolve_address"),
         ("description",
          .str "Reverse resolve an Ethereum address to find its primary ENS name"),
         ("inputSchema",
          .obj [("type", .str "object"),
                ("properties",
                 .obj [("address",
                        .obj [("type", .str "string"),
                              ("description",
                               .str "The Ethereum address to reverse resolve (e.g., '0x...')")])]),
                ("required", .arr [.str "address"])])],
   .obj [("name", .str "get_ens_text_record"),
         ("description", .str "Get a text record from an ENS name"),
         ("inputSchema",
          .obj [("type", .str "object"),
                ("properties",
                 .obj [("ens_name",
                        .obj [("type", .str "string"),
                              ("description", .str "The ENS name to query")]),
                       ("key",
                        .obj [("type", .str "string"),
                              ("description",
                               .str "The text record key (e.g., 'url', 'email', 'twitter', 'github')")])]),
                ("required", .arr [.str "ens_name", .str "key"])])],
   .obj [("name", .str "get_ens_info"),
         ("description", .str "Get comprehensive information about an ENS name"),
         ("inputSchema",
          .obj [("type", .str "object"),
                ("properties",
                 .obj [("ens_name",
                        .obj [("type", .str "string"),
                              ("description",
                               .str "The ENS name to get information for")])]),
                ("required", .arr [.str "ens_name"])])]]

/-- Python `x.get(key, default)`: lookup with default on a dict, an
`AttributeError` on any other receiver. -/
def pyGet (j : Json) (key : String) (dflt : Json) : Except PyErr Json :=
  match j with
  | .obj fs => .ok ((lookupField fs key).getD dflt)
  | _ => .error (.otherErr attrGetMsg)

/-- Body of the `try` block of `ENSMCPServer.handle_message`
(src/ens_mcp_server.py:358): method extraction and dispatch, which may raise
when `message` or `params` is not a dict. -/
def handle_message_try (srv : Server) (now : String) (message : Json) : Except PyErr Json := do
  let method ← pyGet message "method" .null
  if jstrEq method "initialize" then
    let idv ← pyGet message "id" .null
    pure (.obj [("id", idv),
                ("result", .obj [("protocolVersion", .str "2024-11-05"),
                                 ("capabilities",
                                  .obj [("tools", .obj [("listChanged", .bool true)])]),
                                 ("serverInfo", server_info)])])
  else if jstrEq method "tools/list" then
    let idv ← pyGet message "id" .null
    pure (.obj [("id", idv), ("result", .obj [("tools", .arr available_tools)])])
  else if jstrEq method "tools/call" then
    let params ← pyGet message "params" (.obj [])
    let tool_name ← pyGet params "name" .null
    let arguments ← pyGet params "arguments" (.obj [])
    let result := handle_tool_call srv now tool_name arguments
    let idv ← pyGet message "id" .null
    pure (.obj [("id", idv),
                ("result",
                 .obj [("content",
                        .arr [.obj [("type", .str "text"),
                                    ("text", .str (Json.dumps (.obj result)))]])])])
  else
    let idv ← pyGet message "id" .null
    pure (.obj [("id", idv),
                ("error", .obj [("code", .num (-32601)),
                                ("message", .str ("Method not found: " ++ fstr method))])])

/-- Embedding of `ENSMCPServer.handle_message` (src/ens_mcp_server.py:358):
the `try` body plus the `except Exception` clause building the
`-32603 Internal error` response.  The clause itself re-reads
`message.get("id")`, which raises again when `message` is not a dict — in
that case the exception escapes the router. -/
def handle_message (srv : Server) (now : String) (message : Json) : Except PyErr Json :=
  match handle_message_try srv now message with
  | .ok r => .ok r
  | .error e =>
      match pyGet message "id" .null with
      | .ok idv =>
          .ok (.obj [("id", idv),
                     ("error", .obj [("code", .num (-32603)),
                                     ("message", .str ("Internal error: " ++ pyErrStr e))])])
      | .error e2 => .error e2

/-- Response line written by `run_stdio` for a line that fails JSON parsing. -/
def parseErrorResponse : Json :=
  .obj [("error", .obj [("code", .num (-32700)), ("message", .str "Parse error")])]

/-- Embedding of the loop body of `ENSMCPServer.run_stdio`
(src/ens_mcp_server.py:420).  Each element of the input stream is the parse
result of one line (`Except.error` for a `json.JSONDecodeError`); end of the
list is end of stream (`if not line: break`).  An exception escaping
`handle_message` is caught only by the outer `except Exception`, which
terminates the loop.  The returned list is the responses the loop prints. -/
def run_stdio (srv : Server) (now : String) : List (Except Unit Json) → List Json
  | [] => []
  | .error _ :: rest => parseErrorResponse :: run_stdio srv now rest
  | .ok m :: rest =>
      match handle_message srv now m with
      | .ok resp => resp :: run_stdio srv now rest
      | .error _ => []

/-- Result Envelope invariant of §3 of the specification, as a decidable
check: exactly one of `success = true` with no `error` field or
`success = false` with an `error` field, and a `timestamp` field exactly on
success. -/
def envInvB (f : Fields) : Bool :=
  match lookupField f "success" with
  | some (.bool true) =>
      (lookupField f "error").isNone && (lookupField f "timestamp").isSome
  | some (.bool false) =>
      (lookupField f "error").isSome && (lookupField f "timestamp").isNone
  | _ => false

/-- Concrete web3 collaborator used to instantiate theorems with hypotheses. -/
def testW3 : W3 :=
  { is_address := fun s => s == "0xabc"
    to_checksum_address := fun _ => "0xABC" }

/-- Concrete ENS collaborator used to instantiate theorems with hypotheses;
its owner lookup raises and its text records are partially populated. -/
def testENS : ENSClient :=
  { address := fun n => if n == "vitalik.eth" then .ok (some "0xd8dA") else .ok none
    addressCoin := fun _ _ => .ok (some "bc1q")
    name := fun _ => .ok (some "vitalik.eth")
    get_text := fun _ k => if k == "url" then .ok (some "https://example.com") else .ok none
    owner := fun _ => .error (.otherErr "boom")
    resolverAddr := fun _ => .ok (some "0xresolver") }

/-- Concrete initialized server state built from the test collaborators. -/
def testServer : Server := ⟨some testW3, some testENS⟩

/- ------------------------------------------------------------------ -/
/- Helper lemmas on stripping and lowercasing.                         -/
/- ------------------------------------------------------------------ -/

lemma dropWhile_map_eq (f : Char → Char) (p : Char → Bool) (hf : ∀ c, p (f c) = p c)
    (l : List Char) : List.dropWhile p (l.map f) = (List.dropWhile p l).map f := by
  have hpf : (p ∘ f) = p := funext fun c => hf c
  rw [List.dropWhile_map, hpf]

lemma rdropWhile_map_eq (f : Char → Char) (p : Char → Bool) (hf : ∀ c, p (f c) = p c)
    (l : List Char) : List.rdropWhile p (l.map f) = (List.rdropWhile p l).map f := by
  unfold List.rdropWhile
  rw [← List.map_reverse, dropWhile_map_eq f p hf, List.map_reverse]

lemma dropWhile_stripL (l : List Char) :
    List.dropWhile Char.isWhitespace (stripL l) = stripL l := by
  rw [List.dropWhile_eq_self_iff]
  intro hl
  have hpre : stripL l <+: List.dropWhile Char.isWhitespace l :=
    List.rdropWhile_prefix _ _
  have hlen : 0 < (List.dropWhile Char.isWhitespace l).length :=
    lt_of_lt_of_le hl (List.IsPrefix.length_le hpre)
  have hz := List.dropWhile_get_zero_not Char.isWhitespace l hlen
  have hg : (stripL l).get ⟨0, hl⟩ = (List.dropWhile Char.isWhitespace l).get ⟨0, hlen⟩ := by
    simpa using List.IsPrefix.getElem hpre (n := 0) hl
  rw [hg]
  exact hz

lemma stripL_idem (l : List Char) : stripL (stripL l) = stripL l := by
  show List.rdropWhile _ (List.dropWhile _ (stripL l)) = stripL l
  rw [dropWhile_stripL]
  unfold stripL
  exact List.rdropWhile_idempotent _ _

lemma stripL_map (f : Char → Char) (hf : ∀ c, Char.isWhitespace (f c) = Char.isWhitespace c)
    (l : List Char) : stripL (l.map f) = (stripL l).map f := by
  unfold stripL
  rw [dropWhile_map_eq f _ hf, rdropWhile_map_eq f _ hf]

lemma char_ws_false_of_toNat (d : Char)
    (h : d.toNat ≠ 32 ∧ d.toNat ≠ 9 ∧ d.toNat ≠ 13 ∧ d.toNat ≠ 10) :
    d.isWhitespace = false := by
  simp only [Char.isWhitespace, Bool.or_eq_false_iff, decide_eq_false_iff_not]
  refine ⟨⟨⟨?_, ?_⟩, ?_⟩, ?_⟩ <;> intro he
  · exact h.1 (by rw [he]; rfl)
  · exact h.2.1 (by rw [he]; rfl)
  · exact h.2.2.1 (by rw [he]; rfl)
  · exact h.2.2.2 (by rw [he]; rfl)

lemma char_toLower_in (c : Char) (h : c.toNat ≥ 65 ∧ c.toNat ≤ 90) :
    Char.toLower c = Char.ofNat (c.toNat + 32) := by
  simp [Char.toLower, h]

lemma char_toLower_out (c : Char) (h : ¬(c.toNat ≥ 65 ∧ c.toNat ≤ 90)) :
    Char.toLower c = c := by
  simp [Char.toLower, h]

lemma char_toNat_ofNat_valid (n : Nat) (h : n.isValidChar) : (Char.ofNat n).toNat = n := by
  simp only [Char.ofNat, dif_pos h]
  rfl

lemma ws_toLower (c : Char) : (Char.toLower c).isWhitespace = c.isWhitespace := by
  by_cases h : c.toNat ≥ 65 ∧ c.toNat ≤ 90
  · rw [char_toLower_in c h]
    have hv : (c.toNat + 32).isValidChar := Or.inl (by omega)
    have ht := char_toNat_ofNat_valid _ hv
    rw [char_ws_false_of_toNat _ (by omega), char_ws_false_of_toNat c (by omega)]
  · rw [char_toLower_out c h]

lemma toLower_idem (c : Char) : Char.toLower (Char.toLower c) = Char.toLower c := by
  by_cases h : c.toNat ≥ 65 ∧ c.toNat ≤ 90
  · rw [char_toLower_in c h]
    have hv : (c.toNat + 32).isValidChar := Or.inl (by omega)
    have ht := char_toNat_ofNat_valid _ hv
    apply char_toLower_out
    omega
  · rw [char_toLower_out c h, char_toLower_out c h]

lemma normalizeL_idem (l : List Char) : normalizeL (normalizeL l) = normalizeL l := by
  unfold normalizeL
  rw [stripL_map Char.toLower ws_toLower, stripL_idem, List.map_map]
  congr 1
  funext c
  exact toLower_idem c

lemma pyNormalize_idem (s : String) : pyNormalize (pyNormalize s) = pyNormalize s :=
  congrArg String.mk (normalizeL_idem s.data)

/- ------------------------------------------------------------------ -/
/- Helper lemmas on the domain operations' envelopes.                  -/
/- ------------------------------------------------------------------ -/

lemma envInv_resolve (srv : Server) (n ct : Json) (now : String) :
    envInvB (resolve_ens_name srv n ct now) = true := by
  unfold resolve_ens_name
  repeat' first
    | rfl
    | split
    | dsimp only

lemma envInv_reverse (srv : Server) (a : Json) (now : String) :
    envInvB (reverse_resolve_address srv a now) = true := by
  unfold reverse_resolve_address
  repeat' first
    | rfl
    | split
    | dsimp only

lemma envInv_text (srv : Server) (n k : Json) (now : String) :
    envInvB (get_ens_text_record srv n k now) = true := by
  unfold get_ens_text_record
  repeat' first
    | rfl
    | split
    | dsimp only

lemma envInv_info (srv : Server) (n : Json) (now : String) :
    envInvB (get_ens_info srv n now) = true := by
  unfold get_ens_info
  repeat' first
    | rfl
    | split

lemma len_resolve (srv : Server) (n ct : Json) (now : String) :
    3 ≤ (resolve_ens_name srv n ct now).length := by
  unfold resolve_ens_name
  repeat' first
    | simp
    | split

lemma len_reverse (srv : Server) (a : Json) (now : String) :
    3 ≤ (reverse_resolve_address srv a now).length := by
  unfold reverse_resolve_address
  repeat' first
    | simp
    | split

lemma len_text (srv : Server) (n k : Json) (now : String) :
    3 ≤ (get_ens_text_record srv n k now).length := by
  unfold get_ens_text_record
  repeat' first
    | simp
    | split

lemma len_info (srv : Server) (n : Json) (now : String) :
    3 ≤ (get_ens_info srv n now).length := by
  unfold get_ens_info
  repeat' first
    | simp
    | split


/-- C2: every Result Envelope produced by the four domain operations has
exactly one of `success = true` with no `error` field or `success = false`
with an `error` field, and carries a `timestamp` field iff it succeeds. -/
theorem c2_envelope_invariant (srv : Server) (n ct a k : Json) (now : String) :
    envInvB (resolve_ens_name srv n ct now) = true ∧
    envInvB (reverse_resolve_address srv a now) = true ∧
    envInvB (get_ens_text_record srv n k now) = true ∧
    envInvB (get_ens_info srv n now) = true :=
  ⟨envInv_resolve srv n ct now, envInv_reverse srv a now,
   envInv_text srv n k now, envInv_info srv n now⟩

/-- C4: an input line that fails to parse as JSON produces exactly one output
line, the `-32700 Parse error` response carrying no `id` field, and the loop
continues with the remaining input. -/
theorem c4_parse_error_line (srv : Server) (now : String) (rest : List (Except Unit Json)) :
    run_stdio srv now (Except.error () :: rest)
      = parseErrorResponse :: run_stdio srv now rest ∧
    parseErrorResponse
      = Json.obj [("error", Json.obj [("code", Json.num (-32700)),
                                      ("message", Json.str "Parse error")])] ∧
    lookupField [("error", Json.obj [("code", Json.num (-32700)),
                                     ("message", Json.str "Parse error")])] "id" = none :=
  ⟨rfl, rfl, rfl⟩

/-- C9: resolving a name after trimming surrounding whitespace and
lowercasing yields the same Result Envelope as resolving the raw input, for
any initialized server. -/
theorem c9_resolve_normalized (w3o : Option W3) (e : ENSClient) (s : String)
    (ct : Json) (now : String) :
    resolve_ens_name ⟨w3o, some e⟩ (.str (pyNormalize s)) ct now
      = resolve_ens_name ⟨w3o, some e⟩ (.str s) ct now := by
  simp only [resolve_ens_name]
  rw [pyNormalize_idem]

/-- C6: an address input failing the collaborator format check after trimming
yields the invalid-format failure envelope, independently of the
reverse-lookup function, which is never consulted. -/
theorem c6_reverse_invalid_format (w3c : W3) (e : ENSClient)
    (f : String → Except PyErr (Option String)) (a now : String)
    (h : w3c.is_address (pyStrip a) = false) :
    reverse_resolve_address ⟨some w3c, some { e with name := f }⟩ (.str a) now
      = [("success", .bool false),
         ("error", .str ("Invalid Ethereum address format: " ++ pyStrip a)),
         ("address", .str (pyStrip a))] := by
  simp [reverse_resolve_address, h]

theorem c6_witness :
    testW3.is_address (pyStrip "not-an-address") = false ∧
    reverse_resolve_address ⟨some testW3, some testENS⟩ (.str "not-an-address") "T"
      = [("success", .bool false),
         ("error", .str "Invalid Ethereum address format: not-an-address"),
         ("address", .str "not-an-address")] :=
  ⟨rfl, by
    have h := c6_reverse_invalid_format testW3 testENS testENS.name "not-an-address" "T" rfl
    exact h⟩

/-- C8: getTextRecord reports success with the (possibly absent) value for
every non-raising lookup; only a raising lookup yields a failure envelope. -/
theorem c8_text_record (w3o : Option W3) (e : ENSClient) (n k now : String) :
    (∀ v, e.get_text (pyNormalize n) (pyNormalize k) = .ok v →
      get_ens_text_record ⟨w3o, some e⟩ (.str n) (.str k) now
        = [("success", .bool true), ("ens_name", .str (pyNormalize n)),
           ("key", .str (pyNormalize k)), ("value", optStrJson v),
           ("timestamp", .str now)]) ∧
    (∀ err, e.get_text (pyNormalize n) (pyNormalize k) = .error err →
      get_ens_text_record ⟨w3o, some e⟩ (.str n) (.str k) now
        = [("success", .bool false),
           ("error", .str ("Error getting text record: " ++ pyErrStr err)),
           ("ens_name", .str (pyNormalize n)), ("key", .str (pyNormalize k))]) := by
  constructor <;> intro x hx <;> simp only [get_ens_text_record] <;> rw [hx]

theorem c8_witness :
    testENS.get_text (pyNormalize "Vitalik.ETH") (pyNormalize " URL ") = .ok (some "https://example.com") ∧
    get_ens_text_record ⟨some testW3, some testENS⟩ (.str "Vitalik.ETH") (.str " URL ") "T"
      = [("success", .bool true), ("ens_name", .str "vitalik.eth"),
         ("key", .str "url"), ("value", .str "https://example.com"),
         ("timestamp", .str "T")] := by
  refine ⟨rfl, ?_⟩
  have h := (c8_text_record (some testW3) testENS "Vitalik.ETH" " URL " "T").1
    (some "https://example.com") rfl
  exact h


/-- C10: a request whose method is a string matching none of the three known
methods gets the `-32601 Method not found` error response, with no `result`
field. -/
theorem c10_unknown_method (srv : Server) (now : String) (fs : Fields) (s : String)
    (hm : lookupField fs "method" = some (.str s))
    (h1 : s ≠ "initialize") (h2 : s ≠ "tools/list") (h3 : s ≠ "tools/call") :
    handle_message srv now (.obj fs)
      = .ok (.obj [("id", (lookupField fs "id").getD .null),
                   ("error", .obj [("code", .num (-32601)),
                                   ("message", .str ("Method not found: " ++ s))])]) ∧
    lookupField [("id", (lookupField fs "id").getD .null),
                 ("error", .obj [("code", .num (-32601)),
                                 ("message", .str ("Method not found: " ++ s))])] "result"
      = none := by
  refine ⟨?_, rfl⟩
  unfold handle_message handle_message_try
  simp [pyGet, hm, jstrEq, h1, h2, h3, fstr, bind, Except.bind, pure, Except.pure]

theorem c10_witness :
    lookupField [("method", Json.str "foo"), ("id", Json.num 3)] "method"
      = some (Json.str "foo") ∧
    handle_message testServer "T" (.obj [("method", Json.str "foo"), ("id", Json.num 3)])
      = .ok (.obj [("id", Json.num 3),
                   ("error", .obj [("code", .num (-32601)),
                                   ("message", .str "Method not found: foo")])]) := by
  refine ⟨rfl, ?_⟩
  have h := (c10_unknown_method testServer "T" [("method", Json.str "foo"), ("id", Json.num 3)]
    "foo" rfl (by decide) (by decide) (by decide)).1
  exact h

/-- C1: for every parsed request object the router returns a Response and
never raises; any failure of the dispatch body is converted into the
`-32603 Internal error` response carrying the exception description. -/
theorem c1_router_never_raises (srv : Server) (now : String) (fs : Fields) :
    (∃ r, handle_message srv now (.obj fs) = .ok r) ∧
    (∀ e, handle_message_try srv now (.obj fs) = .error e →
      handle_message srv now (.obj fs)
        = .ok (.obj [("id", (lookupField fs "id").getD .null),
                     ("error", .obj [("code", .num (-32603)),
                                     ("message", .str ("Internal error: " ++ pyErrStr e))])])) := by
  have conv : ∀ e, handle_message_try srv now (.obj fs) = .error e →
      handle_message srv now (.obj fs)
        = .ok (.obj [("id", (lookupField fs "id").getD .null),
                     ("error", .obj [("code", .num (-32603)),
                                     ("message", .str ("Internal error: " ++ pyErrStr e))])]) :=
    fun e he => by simp [handle_message, he, pyGet]
  constructor
  · cases h : handle_message_try srv now (.obj fs) with
    | ok r => exact ⟨r, by simp [handle_message, h]⟩
    | error e => exact ⟨_, conv e h⟩
  · exact conv

theorem c1_witness :
    handle_message_try testServer "T"
        (.obj [("method", Json.str "tools/call"), ("params", Json.str "bad")])
      = .error (.otherErr attrGetMsg) ∧
    handle_message testServer "T"
        (.obj [("method", Json.str "tools/call"), ("params", Json.str "bad")])
      = .ok (.obj [("id", Json.null),
                   ("error", .obj [("code", .num (-32603)),
                                   ("message", .str ("Internal error: " ++ attrGetMsg))])]) := by
  refine ⟨rfl, ?_⟩
  have h := (c1_router_never_raises testServer "T"
    [("method", Json.str "tools/call"), ("params", Json.str "bad")]).2
    (.otherErr attrGetMsg) rfl
  exact h

/-- C5 counterexample: a request carrying no id gets a response whose id
field is present with value null, not an absent id. -/
theorem c5_counterexample :
    handle_message testServer "T" (.obj [("method", Json.str "tools/list")])
      = .ok (.obj [("id", Json.null), ("result", .obj [("tools", .arr available_tools)])]) ∧
    lookupField [("id", Json.null), ("result", .obj [("tools", .arr available_tools)])] "id"
      = some Json.null :=
  ⟨rfl, rfl⟩


lemma try_ok_shape (srv : Server) (now : String) (fs : Fields) (r : Json)
    (h : handle_message_try srv now (.obj fs) = .ok r) :
    ∃ tail, r = .obj (("id", (lookupField fs "id").getD .null) :: tail) := by
  unfold handle_message_try at h
  simp only [pyGet, bind, Except.bind, pure, Except.pure] at h
  repeat' split at h
  all_goals cases h
  all_goals exact ⟨_, rfl⟩

/-- C5 (amended): the response id equals the request id echoed via
`message.get("id")`: the request's id value when present, and an explicit
JSON null otherwise — never an absent field. -/
theorem c5_id_echoed (srv : Server) (now : String) (fs : Fields) :
    ∃ rf, handle_message srv now (.obj fs) = .ok (.obj rf) ∧
      lookupField rf "id" = some ((lookupField fs "id").getD .null) := by
  cases h : handle_message_try srv now (.obj fs) with
  | ok r =>
      obtain ⟨tail, rfl⟩ := try_ok_shape srv now fs r h
      refine ⟨("id", (lookupField fs "id").getD .null) :: tail, ?_, rfl⟩
      simp [handle_message, h]
  | error e =>
      refine ⟨[("id", (lookupField fs "id").getD .null),
               ("error", .obj [("code", .num (-32603)),
                               ("message", .str ("Internal error: " ++ pyErrStr e))])], ?_, rfl⟩
      simp [handle_message, h, pyGet]


/-- C3: a tools/call naming a known operation with a required argument key
missing yields the router-level `Error handling tool call` envelope built
from the `KeyError`, for every server (so no domain operation is consulted),
and that envelope differs from every envelope any domain operation can
produce. -/
theorem c3_missing_required_argument (srv : Server) (now : String) (afs : Fields) :
    (lookupField afs "ens_name" = none →
        handle_tool_call srv now (.str "resolve_ens_name") (.obj afs)
          = toolCallCatch (pyKeyErrStr "ens_name")
      ∧ handle_tool_call srv now (.str "get_ens_text_record") (.obj afs)
          = toolCallCatch (pyKeyErrStr "ens_name")
      ∧ handle_tool_call srv now (.str "get_ens_info") (.obj afs)
          = toolCallCatch (pyKeyErrStr "ens_name"))
    ∧ (lookupField afs "address" = none →
        handle_tool_call srv now (.str "reverse_resolve_address") (.obj afs)
          = toolCallCatch (pyKeyErrStr "address"))
    ∧ (∀ nv, lookupField afs "ens_name" = some nv → lookupField afs "key" = none →
        handle_tool_call srv now (.str "get_ens_text_record") (.obj afs)
          = toolCallCatch (pyKeyErrStr "key"))
    ∧ (∀ msg srv2 n2 ct2 k2 now2,
        toolCallCatch msg ≠ resolve_ens_name srv2 n2 ct2 now2
      ∧ toolCallCatch msg ≠ reverse_resolve_address srv2 n2 now2
      ∧ toolCallCatch msg ≠ get_ens_text_record srv2 n2 k2 now2
      ∧ toolCallCatch msg ≠ get_ens_info srv2 n2 now2) := by
  refine ⟨fun h => ?_, fun h => ?_, fun nv hn hk => ?_, fun msg srv2 n2 ct2 k2 now2 => ?_⟩
  · exact ⟨by simp [handle_tool_call, jstrEq, h], by simp [handle_tool_call, jstrEq, h],
      by simp [handle_tool_call, jstrEq, h]⟩
  · simp [handle_tool_call, jstrEq, h]
  · simp [handle_tool_call, jstrEq, hn, hk]
  · refine ⟨fun h => ?_, fun h => ?_, fun h => ?_, fun h => ?_⟩
    · have := len_resolve srv2 n2 ct2 now2
      rw [← h] at this
      simp [toolCallCatch] at this
    · have := len_reverse srv2 n2 now2
      rw [← h] at this
      simp [toolCallCatch] at this
    · have := len_text srv2 n2 k2 now2
      rw [← h] at this
      simp [toolCallCatch] at this
    · have := len_info srv2 n2 now2
      rw [← h] at this
      simp [toolCallCatch] at this

theorem c3_witness :
    lookupField ([] : Fields) "ens_name" = none ∧
    handle_tool_call testServer "T" (.str "resolve_ens_name") (.obj [])
      = toolCallCatch (pyKeyErrStr "ens_name") ∧
    handle_tool_call testServer "T" (.str "reverse_resolve_address") (.obj [])
      = toolCallCatch (pyKeyErrStr "address") ∧
    handle_tool_call testServer "T" (.str "get_ens_text_record")
        (.obj [("ens_name", .str "vitalik.eth")])
      = toolCallCatch (pyKeyErrStr "key") ∧
    toolCallCatch (pyKeyErrStr "ens_name")
      ≠ resolve_ens_name testServer (.str "vitalik.eth") (.num 60) "T" := by
  refine ⟨rfl, ?_, ?_, ?_, ?_⟩
  · exact ((c3_missing_required_argument testServer "T" []).1 rfl).1
  · exact (c3_missing_required_argument testServer "T" []).2.1 rfl
  · exact (c3_missing_required_argument testServer "T" [("ens_name", .str "vitalik.eth")]).2.2.1
      (.str "vitalik.eth") rfl rfl
  · exact ((c3_missing_required_argument testServer "T" []).2.2.2
      (pyKeyErrStr "ens_name") testServer (.str "vitalik.eth") (.num 60) (.str "k") "T").1

lemma collect_lookup (e : ENSClient) (n : String) (keys : List String)
    (k : String) (v : Json) :
    lookupField (collectTextRecords e n keys) k = some v ↔
      (k ∈ keys ∧ ∃ s, v = Json.str s ∧ e.get_text n k = .ok (some s) ∧ s ≠ "") := by
  induction keys with
  | nil => simp [collectTextRecords, lookupField]
  | cons a ks ih =>
      by_cases hak : a = k
      · subst hak
        cases hg : e.get_text n a with
        | error err => simp [collectTextRecords, hg, ih, lookupField]
        | ok vv =>
            cases vv with
            | none => simp [collectTextRecords, hg, ih, lookupField]
            | some s =>
                by_cases hs : s = ""
                · subst hs
                  simp [collectTextRecords, hg, ih, lookupField]
                  intro x h1 h2 h3
                  exact absurd h2.symm h3
                · simp [collectTextRecords, hg, hs, ih, lookupField]
                  constructor
                  · intro hv
                    exact ⟨s, hv.symm, rfl, hs⟩
                  · rintro ⟨s2, hv, he, hs2⟩
                    cases he
                    exact hv.symm
      · cases hg : e.get_text n a with
        | error err =>
            simp [collectTextRecords, hg, ih, hak]
            intro x h1 h2 h3 hka
            exact absurd hka.symm hak
        | ok vv =>
            cases vv with
            | none =>
                simp [collectTextRecords, hg, ih, hak]
                intro x h1 h2 h3 hka
                exact absurd hka.symm hak
            | some s =>
                by_cases hs : s = ""
                · subst hs
                  simp [collectTextRecords, hg, ih, hak]
                  intro x h1 h2 h3 hka
                  exact absurd hka.symm hak
                · simp [collectTextRecords, hg, hs, lookupField, hak, ih]
                  intro x h1 h2 h3 hka
                  exact absurd hka.symm hak

/-- C7: getFullInfo always succeeds for an initialized server; each
sub-lookup affects only its own field, a raising sub-lookup degrades that
field to null, and the text-record mapping contains exactly the keys whose
lookup returned a non-empty value. -/
theorem c7_info_independent_sublookups (w3o : Option W3) (e : ENSClient) (n0 now : String) :
    lookupField (get_ens_info ⟨w3o, some e⟩ (.str n0) now) "success" = some (.bool true)
    ∧ lookupField (get_ens_info ⟨w3o, some e⟩ (.str n0) now) "address"
        = some (exceptFieldJson (e.address (pyNormalize n0)))
    ∧ lookupField (get_ens_info ⟨w3o, some e⟩ (.str n0) now) "owner"
        = some (exceptFieldJson (e.owner (pyNormalize n0)))
    ∧ lookupField (get_ens_info ⟨w3o, some e⟩ (.str n0) now) "resolver"
        = some (exceptFieldJson (e.resolverAddr (pyNormalize n0)))
    ∧ (∀ err, e.owner (pyNormalize n0) = .error err →
        lookupField (get_ens_info ⟨w3o, some e⟩ (.str n0) now) "owner" = some Json.null)
    ∧ lookupField (get_ens_info ⟨w3o, some e⟩ (.str n0) now) "text_records"
        = some (.obj (collectTextRecords e (pyNormalize n0) commonKeys))
    ∧ (∀ k v, lookupField (collectTextRecords e (pyNormalize n0) commonKeys) k = some v ↔
        (k ∈ commonKeys ∧ ∃ s, v = Json.str s
          ∧ e.get_text (pyNormalize n0) k = .ok (some s) ∧ s ≠ "")) := by
  refine ⟨rfl, rfl, rfl, rfl, fun err herr => ?_, rfl, fun k v => collect_lookup e _ _ k v⟩
  simp [get_ens_info, lookupField, exceptFieldJson, herr]

theorem c7_witness :
    testENS.owner (pyNormalize "vitalik.eth") = .error (.otherErr "boom") ∧
    lookupField (get_ens_info ⟨some testW3, some testENS⟩ (.str "vitalik.eth") "T") "owner"
      = some Json.null ∧
    lookupField (get_ens_info ⟨some testW3, some testENS⟩ (.str "vitalik.eth") "T") "success"
      = some (.bool true) ∧
    lookupField (collectTextRecords testENS (pyNormalize "vitalik.eth") commonKeys) "url"
      = some (.str "https://example.com") := by
  refine ⟨rfl, ?_, ?_, ?_⟩
  · exact (c7_info_independent_sublookups (some testW3) testENS "vitalik.eth" "T").2.2.2.2.1
      (.otherErr "boom") rfl
  · exact (c7_info_independent_sublookups (some testW3) testENS "vitalik.eth" "T").1
  · exact ((c7_info_independent_sublookups (some testW3) testENS "vitalik.eth" "T").2.2.2.2.2.2
      "url" (.str "https://example.com")).mpr
      ⟨by decide, "https://example.com", rfl, rfl, by decide⟩

end EnsMcp
